import Mathlib

/-
  Verification of the media-conversion core of the sticker bot
  (src/src/main.rs), as a shallow embedding in Lean 4.

  External effects (the Telegram transport, the filesystem, spawned
  processes) are modelled as oracle parameters: an external-process
  invocation is a function from the full argument list to the result
  `wait_output` would surface (an io error from spawn/timeout, or the
  captured `Output` of exit status plus stdout bytes).  Byte sequences
  are `List Nat`.
-/

namespace StickerBot

/-- main.rs:27 `const MAX_SIZE: u32 = 10 << 20`. -/
def MAX_SIZE : Nat := 10 <<< 20

/-- main.rs:28 `const MAX_OUTPUT_WEBM_SIZE: usize = 256 * 1000`. -/
def MAX_OUTPUT_WEBM_SIZE : Nat := 256 * 1000

/-- main.rs:32-44 `FFMPEG_ARGS`: the argument lists placed before and after
the input path (and the optional lossless flag) of a clip transcode. -/
def FFMPEG_ARGS : List String × List String :=
  (["-hide_banner", "-t", "3", "-i"],
   ["-vf", "scale=w=512:h=512:force_original_aspect_ratio=decrease",
    "-c:v", "libvpx-vp9", "-f", "webm", "-an", "-"])

/-- main.rs:46-47 `FFMPEG_ARGS_WEBM_TO_GIF`. -/
def FFMPEG_ARGS_WEBM_TO_GIF : List String × List String :=
  (["-hide_banner", "-i"], ["-c:v", "gif", "-f", "gif", "-"])

/-- main.rs:51-55 `struct Blob`: bytes plus a static extension tag. -/
structure Blob where
  data : List Nat
  ext : String
deriving DecidableEq

/-- The `std::process::Output` fields `wait_output` exposes to its callers:
`status.success()` and the captured stdout bytes (main.rs:81-90). -/
structure ProcOutput where
  success : Bool
  stdout : List Nat

/-- An external-process oracle: what `wait_output` returns for a given full
argument list.  `Except.error` stands for the io errors (spawn failure,
timeout) that the `?` at each call site propagates. -/
def ProcRun : Type := List String → Except String ProcOutput

/-- The argument list a clip transcode passes to ffmpeg, main.rs:137-142:
`cmd.args(FFMPEG_ARGS.0).arg(file)`, then `-lossless 1` exactly when
`!lossy`, then `cmd.args(FFMPEG_ARGS.1)`. -/
def video_args (input : String) (lossy : Bool) : List String :=
  FFMPEG_ARGS.1 ++ [input] ++ (if lossy then [] else ["-lossless", "1"]) ++ FFMPEG_ARGS.2

/-- main.rs:130-155 `process_video`, with the unbounded `loop` rendered as a
fuel-indexed recursion (`none` = fuel exhausted; the theorems show fuel 2
always suffices, which is the loop's termination argument).  Alongside the
result it returns the argument lists of the transcoder invocations it
performed, in order. -/
def process_video_go (run : ProcRun) (input : String) :
    Bool → Nat → Option (Except String Blob × List (List String))
  | _, 0 => none
  | lossy, Nat.succ fuel =>
    let args := video_args input lossy
    match run args with
    | Except.error e => some (Except.error e, [args])
    | Except.ok out =>
      if out.success = false then
        some (Except.error "ffmpeg", [args])
      else if lossy = false ∧ MAX_OUTPUT_WEBM_SIZE < out.stdout.length then
        match process_video_go run input true fuel with
        | some (r, calls) => some (r, args :: calls)
        | none => none
      else
        some (Except.ok ⟨out.stdout, "webm"⟩, [args])

/-- `process_video` starts with `lossy = false` (main.rs:135); fuel 2 is
justified by `process_video_at_most_two_invocations`. -/
def process_video (run : ProcRun) (input : String) :
    Option (Except String Blob × List (List String)) :=
  process_video_go run input false 2

/-- The argument list of the webm-to-gif conversion, main.rs:163-169. -/
def gif_args (input : String) : List String :=
  FFMPEG_ARGS_WEBM_TO_GIF.1 ++ [input] ++ FFMPEG_ARGS_WEBM_TO_GIF.2

/-- main.rs:157-176 `ffmpeg_to_gif`: stages the bytes to a temp file
(`stage` abstracts `temp_file` + `write_all`) and invokes ffmpeg on it. -/
def ffmpeg_to_gif (run : ProcRun) (stage : List Nat → String) (data : List Nat) :
    Except String Blob :=
  let path := stage data
  match run (gif_args path) with
  | Except.error e => Except.error e
  | Except.ok out =>
    if out.success = false then Except.error "ffmpeg"
    else Except.ok ⟨out.stdout, "gif"⟩

/-- The argument list of the animated-sticker conversion, main.rs:179-184:
`Command::new(TGS_TO_GIF).arg(file).args(["--output", "-"])`. -/
def tgs_args (input : String) : List String :=
  [input, "--output", "-"]

/-- main.rs:178-191 `tgs_to_gif`. -/
def tgs_to_gif (run : ProcRun) (input : String) : Except String Blob :=
  match run (tgs_args input) with
  | Except.error e => Except.error e
  | Except.ok out =>
    if out.success = false then Except.error "tgs_to_gif"
    else Except.ok ⟨out.stdout, "gif"⟩

example :
    video_args "f.mp4" false =
      ["-hide_banner", "-t", "3", "-i", "f.mp4", "-lossless", "1",
       "-vf", "scale=w=512:h=512:force_original_aspect_ratio=decrease",
       "-c:v", "libvpx-vp9", "-f", "webm", "-an", "-"] := rfl

example :
    process_video (fun _ => Except.ok ⟨true, [7]⟩) "f.mp4" =
      some (Except.ok ⟨[7], "webm"⟩, [video_args "f.mp4" false]) := rfl

/-- The command-line shape as the spec (§6) writes it:
`-hide_banner -t 3 -i <input> [-lossless 1] -vf ... -c:v libvpx-vp9 -f webm -an -`,
with the `-lossless 1` pair present exactly when the pass is the lossless
one.  Written from the spec's words, to be compared with `video_args`. -/
def spec_video_args (input : String) (lossless : Bool) : List String :=
  ["-hide_banner", "-t", "3", "-i", input] ++
    (if lossless then ["-lossless", "1"] else []) ++
    ["-vf", "scale=w=512:h=512:force_original_aspect_ratio=decrease",
     "-c:v", "libvpx-vp9", "-f", "webm", "-an", "-"]

/-- The second concurrent path of the video-sticker fan-out, main.rs:271-273:
`async move { self.send_raw(ffmpeg_to_gif(&data).await?).await }` — convert
to gif, then deliver; a conversion error short-circuits the delivery. -/
def gif_delivery (deliver : Blob → Except String Unit) (run : ProcRun)
    (stage : List Nat → String) (data : List Nat) : Except String Unit :=
  match ffmpeg_to_gif run stage data with
  | Except.error e => Except.error e
  | Except.ok b => deliver b

/-- main.rs:269-276, the `StickerFormat::Video` arm of `handle_sticker`:
`join!` of the as-is webm delivery and the gif path, then `r1?; r2`.
`deliver` abstracts `send_raw`; both results are computed (in the source,
`join!` awaits both futures) and then combined exactly as `r1?; r2` does. -/
def handle_sticker_video (deliver : Blob → Except String Unit) (run : ProcRun)
    (stage : List Nat → String) (data : List Nat) : Except String Unit :=
  let r1 := deliver ⟨data, "webm"⟩
  let r2 := gif_delivery deliver run stage data
  match r1 with
  | Except.error e => Except.error e
  | Except.ok _ => r2

/-- The calls the dispatcher makes on the transport collaborator. -/
inductive CollabCall
  | getFile (path : String)
  | downloadMem
  | downloadTmp
  | sendDoc
deriving DecidableEq

/-- Whether a collaborator call is one of the two download operations
(`download_mem` / `download_tmp`, main.rs:234-247). -/
def CollabCall.isDownload : CollabCall → Bool
  | downloadMem => true
  | downloadTmp => true
  | _ => false

/-- The `teloxide::types::File` fields the dispatcher reads: the remote
path and the size reported at file-fetch time (`bot.get_file`). -/
structure TgFileM where
  path : String
  size : Nat

/-- The dispatcher's size gating, main.rs:402-404 (`handler`: the
transport-reported `size` from the message is checked before anything else)
composed with main.rs:280-290 (`handle_media`: `get_file` is called, its
`f.size` re-checked, and only then the `op` dispatch runs).  `f` is the
file `get_file` would return and `rest` abstracts the op dispatch that
follows both checks — the trace of collaborator calls it makes (each
branch starts with a download) and its outcome.  The result pairs the
trace of collaborator calls actually performed with the outcome
(`Except.error` carries the user-facing string). -/
def handler_flow (size : Nat) (f : TgFileM) (rest : List CollabCall × Except String Unit) :
    List CollabCall × Except String Unit :=
  if MAX_SIZE < size then
    ([], Except.error "File is too large.")
  else if MAX_SIZE < f.size then
    ([CollabCall.getFile f.path], Except.error "File too big")
  else
    (CollabCall.getFile f.path :: rest.1, rest.2)

/-- Pixel dimensions of a decoded image; pixel contents are abstracted
away (only dimensions and encoder outcomes matter to the claims). -/
structure DecodedImage where
  width : Nat
  height : Nat
deriving DecidableEq

/-- Modelled from the spec: the fit-within, aspect-preserving resize that
the external image stack performs for `img.resize(512, 512, Lanczos3)`
(main.rs:106) — "Resize to fit within 512×512 using a high-quality
resampling filter (Lanczos-class), preserving aspect ratio" (§4.4).  The
common scale ratio is the smaller of the two per-axis ratios, each target
axis is the rounded scaled source axis (at least 1); exact rational
arithmetic stands in for the stack's f64. -/
def resize_dimensions (w h nw nh : Nat) : Nat × Nat :=
  let wratio : ℚ := (nw : ℚ) / (w : ℚ)
  let hratio : ℚ := (nh : ℚ) / (h : ℚ)
  let ratio := min wratio hratio
  ((max 1 (round ((w : ℚ) * ratio))).toNat, (max 1 (round ((h : ℚ) * ratio))).toNat)

/-- The resized image: dimensions from `resize_dimensions`. -/
def resize_img (img : DecodedImage) (nw nh : Nat) : DecodedImage :=
  ⟨(resize_dimensions img.width img.height nw nh).1,
   (resize_dimensions img.width img.height nw nh).2⟩

/-- A read from an in-memory cursor (main.rs:99 `Cursor::new(file)`): the
`io::Result` interface of `Read`, which for a memory cursor never returns
an error — it yields the next `n` buffered bytes. -/
def cursor_read (file : List Nat) (n : Nat) : Except String (List Nat) :=
  Except.ok (List.take n file)

/-- main.rs:99-101 `ImageReader::with_guessed_format()`: reads the leading
bytes from the underlying reader to sniff the format (`guess` is the
content-sniffing oracle; `Nat` an abstract format code); an io error from
that read is what the `.unwrap()` at main.rs:101 would panic on. -/
def with_guessed_format (guess : List Nat → Option Nat) (file : List Nat) :
    Except String (Option Nat) :=
  match cursor_read file 16 with
  | Except.error e => Except.error e
  | Except.ok head => Except.ok (guess head)

/-- main.rs:98-126 `process_image`.  Oracles for the external image stack:
`guess` sniffs the format from leading bytes, `decode` decodes the bytes
under the guessed format (`none` = decode failure), `webpEncode` is
`WebpEncoder::from_image` + `encode_lossless` (`none` = `from_image`
failure), `pngEncode` is `img.write_to(.., Png)` whose error the source
propagates with `?`.  The outer `Option` models the `.unwrap()` on the
`with_guessed_format` result: `none` is the panic branch. -/
def process_image (guess : List Nat → Option Nat)
    (decode : List Nat → Option Nat → Option DecodedImage)
    (webpEncode : DecodedImage → Option (List Nat))
    (pngEncode : DecodedImage → Except String (List Nat))
    (file : List Nat) : Option (Except String Blob) :=
  match with_guessed_format guess file with
  | Except.error _ => none
  | Except.ok fmt =>
    some (match decode file fmt with
      | some img =>
        let img2 := resize_img img 512 512
        match webpEncode img2 with
        | some mem => Except.ok ⟨mem, "webp"⟩
        | none =>
          match pngEncode img2 with
          | Except.ok v => Except.ok ⟨v, "png"⟩
          | Except.error e => Except.error e
      | none => Except.error "File is not an image.")

/-- Events of one child-process interaction, in order. -/
inductive ChildEvent
  | spawned (cmd : String) (args : List String)
  | wroteStdin (data : List Nat)
  | closedStdin
  | waited
deriving DecidableEq

/-- Modelled from the spec: the Process Runner contract
`run(command, args, stdin?)` of §4.2 — "Spawns the external process with
the supplied arguments; if `stdin` bytes are supplied, they are written
and the input stream closed before waiting."  The revision under src
(`wait_output`, main.rs:81-90) takes a pre-built command and no stdin
bytes (its callers stage input through temp files); the stdin-accepting
runner belongs to revisions of the program not included under src.  The
model records the interaction as an event trace. -/
def run_events (cmd : String) (args : List String) (stdin : Option (List Nat)) :
    List ChildEvent :=
  ChildEvent.spawned cmd args ::
    ((match stdin with
      | some d => [ChildEvent.wroteStdin d, ChildEvent.closedStdin]
      | none => []) ++ [ChildEvent.waited])

example :
    resize_dimensions 3000 2000 512 512 = (512, 341) := by
  norm_num [resize_dimensions, round_eq]
  decide

example :
    handler_flow (MAX_SIZE + 1) ⟨"p", 0⟩ ([], Except.ok ()) =
      ([], Except.error "File is too large.") := rfl

/-- Helper: one axis of the fit-within resize is bounded by the target,
provided the axis scale ratio is at most `512 / a`. -/
lemma resize_axis_le (a r : ℚ) (ha : 0 < a) (hr : r ≤ 512 / a) :
    (max 1 (round (a * r))).toNat ≤ 512 := by
  have h1 : a * r ≤ 512 := by
    have h2 : a * r ≤ a * (512 / a) := mul_le_mul_of_nonneg_left hr ha.le
    have h3 : a * (512 / a) = 512 := by field_simp
    linarith
  have h4 : round (a * r) ≤ (512 : ℤ) := by
    rw [round_eq]
    have h5 : a * r + 1 / 2 ≤ (512 : ℚ) + 1 / 2 := by linarith
    have h6 : ⌊a * r + 1 / 2⌋ ≤ ⌊(512 : ℚ) + 1 / 2⌋ := Int.floor_le_floor h5
    have h7 : ⌊(512 : ℚ) + 1 / 2⌋ = 512 := by
      rw [show ((512 : ℚ) + 1 / 2) = 1 / 2 + ((512 : ℤ) : ℚ) by norm_num,
        Int.floor_add_int, Int.floor_eq_zero_iff.mpr (by norm_num [Set.mem_Ico])]
      norm_num
    omega
  have h8 : max 1 (round (a * r)) ≤ (512 : ℤ) := max_le (by norm_num) h4
  exact Int.toNat_le.mpr h8

/-- Helper: both axes produced by `resize_dimensions` against a 512×512
target are at most 512 for a nonempty source image. -/
lemma resize_dimensions_le_512 (w h : Nat) (hw : 1 ≤ w) (hh : 1 ≤ h) :
    (resize_dimensions w h 512 512).1 ≤ 512 ∧ (resize_dimensions w h 512 512).2 ≤ 512 := by
  have hw0 : (0 : ℚ) < (w : ℚ) := by exact_mod_cast hw
  have hh0 : (0 : ℚ) < (h : ℚ) := by exact_mod_cast hh
  have hc : ((512 : ℕ) : ℚ) = (512 : ℚ) := by norm_num
  constructor
  · refine resize_axis_le (w : ℚ) _ hw0 ?_
    simp only [resize_dimensions, hc]
    exact min_le_left _ _
  · refine resize_axis_le (h : ℚ) _ hh0 ?_
    simp only [resize_dimensions, hc]
    exact min_le_right _ _

/-- C10: `process_image` is total: for every input bytes and every behavior
of the image-stack oracles it returns `some` result (a Blob or an error)
and never reaches the panic branch modelling the `.unwrap()`, because
`with_guessed_format` reads from an in-memory cursor, which never yields
an io error. -/
theorem process_image_total (guess : List Nat → Option Nat)
    (decode : List Nat → Option Nat → Option DecodedImage)
    (webpEncode : DecodedImage → Option (List Nat))
    (pngEncode : DecodedImage → Except String (List Nat))
    (file : List Nat) :
    ∃ r, process_image guess decode webpEncode pngEncode file = some r :=
  ⟨_, rfl⟩

/-- C4: for input bytes the image stack cannot decode, `process_image`
fails with the "File is not an image." error and returns no Blob. -/
theorem process_image_not_an_image (guess : List Nat → Option Nat)
    (decode : List Nat → Option Nat → Option DecodedImage)
    (webpEncode : DecodedImage → Option (List Nat))
    (pngEncode : DecodedImage → Except String (List Nat))
    (file : List Nat)
    (hdec : ∀ fmt, decode file fmt = none) :
    process_image guess decode webpEncode pngEncode file =
      some (Except.error "File is not an image.") := by
  simp [process_image, with_guessed_format, cursor_read, hdec]

theorem process_image_not_an_image_witness :
    process_image (fun _ => none) (fun _ _ => none) (fun _ => none)
      (fun _ => Except.error "e") [0] = some (Except.error "File is not an image.") :=
  process_image_not_an_image _ _ _ _ _ (fun _ => rfl)

/-- C3: for decodable input bytes, the image the encoders receive is the
source image resized to fit within 512×512 (both axes at most 512), and
the returned Blob is tagged `webp` when the primary webp encoder succeeds,
and `png` via the single PNG fallback when it fails. -/
theorem process_image_bounds_and_ext (guess : List Nat → Option Nat)
    (decode : List Nat → Option Nat → Option DecodedImage)
    (webpEncode : DecodedImage → Option (List Nat))
    (pngEncode : DecodedImage → Except String (List Nat))
    (file : List Nat) (img : DecodedImage)
    (hdec : decode file (guess (List.take 16 file)) = some img)
    (hw : 1 ≤ img.width) (hh : 1 ≤ img.height) :
    ((resize_img img 512 512).width ≤ 512 ∧ (resize_img img 512 512).height ≤ 512) ∧
    (∀ mem, webpEncode (resize_img img 512 512) = some mem →
      process_image guess decode webpEncode pngEncode file =
        some (Except.ok ⟨mem, "webp"⟩)) ∧
    (∀ v, webpEncode (resize_img img 512 512) = none →
      pngEncode (resize_img img 512 512) = Except.ok v →
      process_image guess decode webpEncode pngEncode file =
        some (Except.ok ⟨v, "png"⟩)) := by
  refine ⟨resize_dimensions_le_512 img.width img.height hw hh, ?_, ?_⟩
  · intro mem hmem
    simp [process_image, with_guessed_format, cursor_read, hdec, hmem]
  · intro v hwe hpe
    simp [process_image, with_guessed_format, cursor_read, hdec, hwe, hpe]

theorem process_image_bounds_and_ext_witness :
    ((resize_img ⟨3000, 2000⟩ 512 512).width ≤ 512 ∧
      (resize_img ⟨3000, 2000⟩ 512 512).height ≤ 512) ∧
    (∀ mem : List ℕ, some [1] = some mem →
      process_image (fun _ => none) (fun _ _ => some ⟨3000, 2000⟩)
        (fun _ => some [1]) (fun _ => Except.ok [2]) [0] =
        some (Except.ok ⟨mem, "webp"⟩)) ∧
    (∀ v : List ℕ, (some [1] : Option (List ℕ)) = none →
      (Except.ok [2] : Except String (List ℕ)) = Except.ok v →
      process_image (fun _ => none) (fun _ _ => some ⟨3000, 2000⟩)
        (fun _ => some [1]) (fun _ => Except.ok [2]) [0] =
        some (Except.ok ⟨v, "png"⟩)) :=
  process_image_bounds_and_ext (fun _ => none) (fun _ _ => some ⟨3000, 2000⟩)
    (fun _ => some [1]) (fun _ => Except.ok [2]) [0] ⟨3000, 2000⟩ rfl
    (by decide) (by decide)

/-- C9: in the Process Runner contract, whenever stdin bytes are supplied
to `run_events`, the trace contains the write of exactly those bytes,
then the close of the input stream, and only afterwards the wait on the
process. -/
theorem run_stdin_written_and_closed_before_wait (cmd : String) (args : List String)
    (d : List Nat) :
    ∃ i j k : Nat, i < j ∧ j < k ∧
      (run_events cmd args (some d))[i]? = some (ChildEvent.wroteStdin d) ∧
      (run_events cmd args (some d))[j]? = some ChildEvent.closedStdin ∧
      (run_events cmd args (some d))[k]? = some ChildEvent.waited ∧
      (run_events cmd args none)[1]? = some ChildEvent.waited :=
  ⟨1, 2, 3, by omega, by omega, rfl, rfl, rfl, rfl⟩

/-- C2 (amended): the VideoSticker arm awaits both delivery results and
combines them as `r1?; r2`: the request succeeds exactly when both the
as-is webm delivery and the gif path succeeded; if the first (webm as-is)
delivery failed, its error is reported, taking precedence; otherwise the
gif path's result — including its failure — is what the request reports. -/
theorem handle_sticker_video_result (deliver : Blob → Except String Unit)
    (run : ProcRun) (stage : List Nat → String) (data : List Nat) :
    (handle_sticker_video deliver run stage data = Except.ok () ↔
      deliver ⟨data, "webm"⟩ = Except.ok () ∧
        gif_delivery deliver run stage data = Except.ok ()) ∧
    (∀ e, deliver ⟨data, "webm"⟩ = Except.error e →
      handle_sticker_video deliver run stage data = Except.error e) ∧
    (deliver ⟨data, "webm"⟩ = Except.ok () →
      handle_sticker_video deliver run stage data = gif_delivery deliver run stage data) := by
  unfold handle_sticker_video
  rcases h1 : deliver ⟨data, "webm"⟩ with e | u
  · refine ⟨?_, ?_, ?_⟩
    · simp
    · intro e2 h2
      cases h2
      rfl
    · intro h2
      simp at h2
  · cases u
    refine ⟨?_, ?_, ?_⟩
    · simp
    · intro e2 h2
      simp at h2
    · intro _
      rfl

theorem handle_sticker_video_result_witness :
    handle_sticker_video (fun _ => Except.error "send failed")
      (fun _ => Except.ok ⟨true, []⟩) (fun _ => "tmp") [0] =
      Except.error "send failed" :=
  (handle_sticker_video_result (fun _ => Except.error "send failed")
    (fun _ => Except.ok ⟨true, []⟩) (fun _ => "tmp") [0]).2.1 "send failed" rfl

/-- C2 counterexample: with the as-is webm delivery succeeding and the gif
path failing, the request still reports failure — refuting, at this
concrete input, that failure is reported only if the first-attempted
(webm as-is) path failed. -/
theorem handle_sticker_video_second_failure_reported :
    (fun b : Blob => if b.data = [9] then Except.ok () else Except.error "gif send failed")
        ⟨[9], "webm"⟩ = Except.ok () ∧
    handle_sticker_video
      (fun b : Blob => if b.data = [9] then Except.ok () else Except.error "gif send failed")
      (fun _ => Except.ok ⟨true, [1]⟩) (fun _ => "tmp") [9] =
      Except.error "gif send failed" :=
  ⟨rfl, rfl⟩

/-- C5: the 10 MiB bound (`MAX_SIZE = 10 << 20`) gates the dispatcher
twice: a transport-reported size above the bound short-circuits before
anything — no collaborator call at all, in particular no download — with
the "File is too large." reply; when it passes but the size reported by
`get_file` is above the bound, the only call made is the file fetch and
the request fails with "File too big"; and any download call in the trace
can only occur after both checks passed, coming from the op dispatch. -/
theorem size_gate_no_download (size : Nat) (f : TgFileM)
    (rest : List CollabCall × Except String Unit) :
    MAX_SIZE = 10 * 1024 * 1024 ∧
    (MAX_SIZE < size →
      handler_flow size f rest = ([], Except.error "File is too large.")) ∧
    (size ≤ MAX_SIZE → MAX_SIZE < f.size →
      handler_flow size f rest =
        ([CollabCall.getFile f.path], Except.error "File too big")) ∧
    (∀ c ∈ (handler_flow size f rest).1, c.isDownload = true →
      size ≤ MAX_SIZE ∧ f.size ≤ MAX_SIZE ∧ c ∈ rest.1) := by
  refine ⟨rfl, ?_, ?_, ?_⟩
  · intro h
    simp [handler_flow, h]
  · intro h1 h2
    simp [handler_flow, h2, Nat.not_lt.mpr h1]
  · intro c hc hdl
    unfold handler_flow at hc
    split_ifs at hc with hs hf
    · simp at hc
    · simp at hc
      simp [hc, CollabCall.isDownload] at hdl
    · simp at hc
      rcases hc with hc | hc
      · simp [hc, CollabCall.isDownload] at hdl
      · exact ⟨Nat.not_lt.mp hs, Nat.not_lt.mp hf, hc⟩

theorem size_gate_no_download_witness :
    handler_flow (MAX_SIZE + 1) ⟨"p", 7⟩ ([CollabCall.downloadMem], Except.ok ()) =
      ([], Except.error "File is too large.") :=
  (size_gate_no_download (MAX_SIZE + 1) ⟨"p", 7⟩
    ([CollabCall.downloadMem], Except.ok ())).2.1 (by omega)

/-- Helper: every argument list in a `process_video_go` invocation trace is
one of the two clip-transcode shapes (lossless or lossy). -/
lemma process_video_go_calls_shape (run : ProcRun) (input : String) :
    ∀ fuel lossy r calls, process_video_go run input lossy fuel = some (r, calls) →
      ∀ a ∈ calls, a = video_args input false ∨ a = video_args input true := by
  intro fuel
  induction fuel with
  | zero =>
    intro lossy r calls h
    simp [process_video_go] at h
  | succ n ih =>
    intro lossy r calls h a ha
    cases lossy with
    | true =>
      rcases hr : run (video_args input true) with e | out
      · simp [process_video_go, hr] at h
        rcases h with ⟨-, rfl⟩
        simp at ha
        subst ha
        exact Or.inr rfl
      · by_cases hs : out.success = true
        · simp [process_video_go, hr, hs] at h
          rcases h with ⟨-, rfl⟩
          simp at ha
          subst ha
          exact Or.inr rfl
        · simp [process_video_go, hr, hs] at h
          rcases h with ⟨-, rfl⟩
          simp at ha
          subst ha
          exact Or.inr rfl
    | false =>
      rcases hr : run (video_args input false) with e | out
      · simp [process_video_go, hr] at h
        rcases h with ⟨-, rfl⟩
        simp at ha
        subst ha
        exact Or.inl rfl
      · by_cases hs : out.success = true
        · by_cases hb : MAX_OUTPUT_WEBM_SIZE < out.stdout.length
          · rcases hrec : process_video_go run input true n with _ | ⟨r2, calls2⟩
            · simp [process_video_go, hr, hs, hb, hrec] at h
            · simp [process_video_go, hr, hs, hb, hrec] at h
              rcases h with ⟨-, rfl⟩
              simp at ha
              rcases ha with ha | ha
              · subst ha
                exact Or.inl rfl
              · exact ih true r2 calls2 hrec a ha
          · simp [process_video_go, hr, hs, hb] at h
            rcases h with ⟨-, rfl⟩
            simp at ha
            subst ha
            exact Or.inl rfl
        · simp [process_video_go, hr, hs] at h
          rcases h with ⟨-, rfl⟩
          simp at ha
          subst ha
          exact Or.inl rfl

/-- C1: for any fuel of at least 2, the clip-transcode loop completes with
at most 2 transcoder invocations (so fuel 2 — the two-valued lossy flag —
bounds the loop): the first invocation carries the lossless flag, a second
invocation happens exactly when the first succeeded with output above
256,000 bytes, and when the lossy pass succeeds its bytes are returned as
a webm Blob with no condition on their size. -/
theorem process_video_at_most_two_invocations (run : ProcRun) (input : String)
    (fuel : Nat) (hf : 2 ≤ fuel) :
    ∃ r calls, process_video_go run input false fuel = some (r, calls) ∧
      calls.length ≤ 2 ∧
      calls.head? = some (video_args input false) ∧
      (calls.length = 2 ↔
        ∃ out, run (video_args input false) = Except.ok out ∧ out.success = true ∧
          MAX_OUTPUT_WEBM_SIZE < out.stdout.length) ∧
      (calls.length = 2 → calls = [video_args input false, video_args input true]) ∧
      (∀ out2, calls.length = 2 → run (video_args input true) = Except.ok out2 →
        out2.success = true → r = Except.ok ⟨out2.stdout, "webm"⟩) := by
  obtain ⟨k, rfl⟩ : ∃ k, fuel = k + 1 + 1 := ⟨fuel - 2, by omega⟩
  rcases h1 : run (video_args input false) with e | out
  · refine ⟨Except.error e, [video_args input false],
      by simp [process_video_go, h1], by simp, rfl, by simp [h1], by simp, ?_⟩
    intro o2 hlen
    simp at hlen
  · by_cases hs : out.success = true
    · by_cases hb : MAX_OUTPUT_WEBM_SIZE < out.stdout.length
      · rcases h2 : run (video_args input true) with e2 | out2
        · refine ⟨Except.error e2, [video_args input false, video_args input true],
            by simp [process_video_go, h1, hs, hb, h2], by simp, rfl, ?_, fun _ => rfl, ?_⟩
          · simp [h1, hs, hb]
          · intro o2 _ ho2
            simp at ho2
        · by_cases hs2 : out2.success = true
          · refine ⟨Except.ok ⟨out2.stdout, "webm"⟩,
              [video_args input false, video_args input true],
              by simp [process_video_go, h1, hs, hb, h2, hs2], by simp, rfl, ?_,
              fun _ => rfl, ?_⟩
            · simp [h1, hs, hb]
            · intro o2 _ ho2 hso2
              injection ho2 with h3
              subst h3
              rfl
          · refine ⟨Except.error "ffmpeg",
              [video_args input false, video_args input true],
              by simp [process_video_go, h1, hs, hb, h2, hs2], by simp, rfl, ?_,
              fun _ => rfl, ?_⟩
            · simp [h1, hs, hb]
            · intro o2 _ ho2 hso2
              injection ho2 with h3
              subst h3
              exact absurd hso2 hs2
      · refine ⟨Except.ok ⟨out.stdout, "webm"⟩, [video_args input false],
          by simp [process_video_go, h1, hs, hb], by simp, rfl, by simp [h1, hb], by simp, ?_⟩
        intro o2 hlen
        simp at hlen
    · refine ⟨Except.error "ffmpeg", [video_args input false],
        by simp [process_video_go, h1, hs], by simp, rfl, by simp [h1, hs], by simp, ?_⟩
      intro o2 hlen
      simp at hlen

theorem process_video_at_most_two_invocations_witness :
    ∃ r calls,
      process_video_go (fun _ => Except.error "spawn") "in.mp4" false 2 = some (r, calls) ∧
      calls.length ≤ 2 ∧
      calls.head? = some (video_args "in.mp4" false) ∧
      (calls.length = 2 ↔
        ∃ out : ProcOutput,
          (Except.error "spawn" : Except String ProcOutput) = Except.ok out ∧
          out.success = true ∧ MAX_OUTPUT_WEBM_SIZE < out.stdout.length) ∧
      (calls.length = 2 → calls = [video_args "in.mp4" false, video_args "in.mp4" true]) ∧
      (∀ out2 : ProcOutput, calls.length = 2 →
        (Except.error "spawn" : Except String ProcOutput) = Except.ok out2 →
        out2.success = true → r = Except.ok ⟨out2.stdout, "webm"⟩) :=
  process_video_at_most_two_invocations (fun _ => Except.error "spawn") "in.mp4" 2
    (by omega)

/-- C6: the clip-transcode invocation has exactly the spec's command-line
shape — `video_args` coincides with `spec_video_args`, with the
`-lossless 1` pair between the input path and the filter arguments exactly
when the pass is the lossless (non-lossy) one — and every invocation in a
`process_video_go` trace is one of the two shapes. -/
theorem video_cmd_shape :
    (∀ input : String, video_args input false = spec_video_args input true ∧
      video_args input true = spec_video_args input false) ∧
    (∀ (run : ProcRun) (input : String) (fuel : Nat) (r : Except String Blob)
      (calls : List (List String)),
      process_video_go run input false fuel = some (r, calls) →
      ∀ a ∈ calls, a = video_args input false ∨ a = video_args input true) :=
  ⟨fun _ => ⟨rfl, rfl⟩,
   fun run input fuel r calls h =>
    process_video_go_calls_shape run input fuel false r calls h⟩

theorem video_cmd_shape_witness :
    video_args "in.mp4" false = spec_video_args "in.mp4" true ∧
    (video_args "in.mp4" false = video_args "in.mp4" false ∨
      video_args "in.mp4" false = video_args "in.mp4" true) :=
  ⟨(video_cmd_shape.1 "in.mp4").1,
   video_cmd_shape.2 (fun _ => Except.error "spawn") "in.mp4" 1 (Except.error "spawn")
     [video_args "in.mp4" false] rfl (video_args "in.mp4" false) (by simp)⟩

/-- C7: a non-zero exit of an external transcoder process is fatal with no
retry: a failed lossless clip pass stops the loop after that single
invocation (no lossy retry is attempted), a failed lossy pass stops it
after the two invocations, and a failed webm-to-gif or animated-sticker
conversion fails with its respective error. -/
theorem nonzero_exit_fatal :
    (∀ (run : ProcRun) (input : String) (fuel : Nat) (out : ProcOutput),
      run (video_args input false) = Except.ok out → out.success = false →
      process_video_go run input false (fuel + 1) =
        some (Except.error "ffmpeg", [video_args input false])) ∧
    (∀ (run : ProcRun) (input : String) (fuel : Nat) (out out2 : ProcOutput),
      run (video_args input false) = Except.ok out → out.success = true →
      MAX_OUTPUT_WEBM_SIZE < out.stdout.length →
      run (video_args input true) = Except.ok out2 → out2.success = false →
      process_video_go run input false (fuel + 1 + 1) =
        some (Except.error "ffmpeg", [video_args input false, video_args input true])) ∧
    (∀ (run : ProcRun) (stage : List Nat → String) (data : List Nat) (out : ProcOutput),
      run (gif_args (stage data)) = Except.ok out → out.success = false →
      ffmpeg_to_gif run stage data = Except.error "ffmpeg") ∧
    (∀ (run : ProcRun) (input : String) (out : ProcOutput),
      run (tgs_args input) = Except.ok out → out.success = false →
      tgs_to_gif run input = Except.error "tgs_to_gif") := by
  refine ⟨?_, ?_, ?_, ?_⟩
  · intro run input fuel out h1 hsf
    simp [process_video_go, h1, hsf]
  · intro run input fuel out out2 h1 hs hb h2 hs2
    simp [process_video_go, h1, hs, hb, h2, hs2]
  · intro run stage data out h hsf
    simp [ffmpeg_to_gif, h, hsf]
  · intro run input out h hsf
    simp [tgs_to_gif, h, hsf]

theorem nonzero_exit_fatal_witness :
    process_video_go (fun _ => Except.ok ⟨false, []⟩) "in.mp4" false 1 =
      some (Except.error "ffmpeg", [video_args "in.mp4" false]) ∧
    process_video_go
      (fun a => if a.length = 15 then Except.ok ⟨true, List.replicate 256001 0⟩
        else Except.ok ⟨false, []⟩) "in.mp4" false 2 =
      some (Except.error "ffmpeg", [video_args "in.mp4" false, video_args "in.mp4" true]) ∧
    ffmpeg_to_gif (fun _ => Except.ok ⟨false, []⟩) (fun _ => "tmp") [0] =
      Except.error "ffmpeg" ∧
    tgs_to_gif (fun _ => Except.ok ⟨false, []⟩) "sticker.tgs" = Except.error "tgs_to_gif" :=
  ⟨nonzero_exit_fatal.1 (fun _ => Except.ok ⟨false, []⟩) "in.mp4" 0 ⟨false, []⟩ rfl rfl,
   nonzero_exit_fatal.2.1
     (fun a => if a.length = 15 then Except.ok ⟨true, List.replicate 256001 0⟩
       else Except.ok ⟨false, []⟩) "in.mp4" 0
     ⟨true, List.replicate 256001 0⟩ ⟨false, []⟩ rfl rfl
     (by rw [List.length_replicate]; norm_num [MAX_OUTPUT_WEBM_SIZE]) rfl rfl,
   nonzero_exit_fatal.2.2.1 (fun _ => Except.ok ⟨false, []⟩) (fun _ => "tmp") [0]
     ⟨false, []⟩ rfl rfl,
   nonzero_exit_fatal.2.2.2 (fun _ => Except.ok ⟨false, []⟩) "sticker.tgs"
     ⟨false, []⟩ rfl rfl⟩

end StickerBot
